import Mathlib

/-!
Shallow embedding of the Quiz portal front end (Next.js/Supabase client code):
the student-dashboard analytics and rank computations, the dashboard fetch
effects, the OAuth-callback provisioning/redirect flow (`handleAuth`), the
sign-up flow (`handleSubmit`), the home-page redirect, and the manual
password-login redirect.  JavaScript numbers that can become NaN are embedded
as `JSNum`; nullable JS values are embedded as `Option`.
-/

namespace Quiz

/-- A JavaScript number: either an actual (rational) value or NaN.
Infinities never arise in the embedded code (see `jsDiv`). -/
inductive JSNum where
  | num (q : ℚ)
  | nan
deriving DecidableEq, Repr

/-- JS division as it occurs in `fetchAnalytics`: there the numerator is the
sum over exactly those rows counted by the denominator, so a zero denominator
forces a zero numerator and the division is JS `0/0 = NaN`; the Infinity
results of JS division are unreachable in the embedded expression. -/
def jsDiv (a b : ℚ) : JSNum :=
  if b = 0 then JSNum.nan else JSNum.num (a / b)

/-- JS `Math.round`: round half up (floor of x + 1/2); NaN propagates. -/
def jsRound : JSNum → JSNum
  | JSNum.num q => JSNum.num (((q + 1 / 2).floor : ℤ) : ℚ)
  | JSNum.nan => JSNum.nan

/-- A row of the `quiz_results` table as fetched by the student dashboard:
`score` is nullable, `status` is a string tag. -/
structure QuizRow where
  score : Option ℚ
  status : String
deriving DecidableEq, Repr

/-- Embeds `data.filter(q => q.score !== null)` from `fetchAnalytics`. -/
def scoredRows (data : List QuizRow) : List QuizRow :=
  data.filter (fun q => q.score.isSome)

/-- Embeds `.reduce((sum, q) => sum + (q.score || 0), 0)` over the scored rows. -/
def scoreSum (data : List QuizRow) : ℚ :=
  (scoredRows data).foldl (fun sum q => sum + q.score.getD 0) 0

/-- The non-null scores of the fetched rows (the spec's reading: the list of
scores of the M rows with non-null score). -/
def nonNullScores (data : List QuizRow) : List ℚ :=
  data.filterMap (fun q => q.score)

/-- The `averageScore` as computed in `fetchAnalytics`:
`data.length > 0 ? Math.round(scoreSum / scoredRows.length) : 0`. -/
def averageScore (data : List QuizRow) : JSNum :=
  if data.length > 0 then
    jsRound (jsDiv (scoreSum data) ((scoredRows data).length : ℚ))
  else JSNum.num 0

/-- Embeds the completed count from `fetchAnalytics`:
`data.filter(q => q.status === 'completed').length`. -/
def completedCount (data : List QuizRow) : ℕ :=
  (data.filter (fun q => q.status = "completed")).length

/-- The analytics view state set by `fetchAnalytics`. -/
structure Analytics where
  averageScore : JSNum
  totalQuizzes : ℕ
  completed : ℕ
deriving DecidableEq, Repr

/-- The `fetchAnalytics` effect on the analytics state: on a null response
(`if (data)` false) the state is left unchanged, otherwise all three fields
are recomputed from the fetched rows. -/
def fetchAnalytics (resp : Option (List QuizRow)) (st : Analytics) : Analytics :=
  match resp with
  | none => st
  | some data =>
      { averageScore := averageScore data
        totalQuizzes := data.length
        completed := completedCount data }

/-- A row of the `students` table (classmates / leaderboard fetches).
`sectionName` embeds the `section` column. -/
structure StudentRow where
  id : String
  department : String
  sectionName : String
  score : ℚ
deriving DecidableEq, Repr

/-- JS `Array.prototype.findIndex`: index of the first match, `-1` if none. -/
def jsFindIndex (p : α → Bool) (l : List α) : ℤ :=
  match l.findIdx? p with
  | some i => (i : ℤ)
  | none => -1

/-- The `classRank` from the student dashboard stats:
`leaderboard.findIndex(l => l.id === user.id) + 1 || 1`
(in JS, `0 || 1` is `1`, so an absent id yields rank 1). -/
def classRank (leaderboard : List StudentRow) (userId : String) : ℤ :=
  let r : ℤ := jsFindIndex (fun l => l.id = userId) leaderboard + 1
  if r = 0 then 1 else r

/-- An authenticated session as seen by the client: the session always carries
its user (so the `if (user)` guard in `handleAuth` is always taken); only the
email is consulted by the embedded code. -/
structure Session where
  userEmail : String
deriving DecidableEq, Repr

/-- A remote-procedure invocation: the procedure name and the arguments
supplied to it (`none` = the argument was not supplied).  `sectionName`
embeds the `section` argument. -/
structure RpcCall where
  rpcName : String
  user_email : Option String
  department : Option String
  sectionName : Option String
  username : Option String
deriving DecidableEq, Repr

/-- Whether an invocation supplies all four arguments
email, department, section, username. -/
def hasAllFourArgs (c : RpcCall) : Bool :=
  c.user_email.isSome && c.department.isSome && c.sectionName.isSome && c.username.isSome

/-- Outcome of an awaited remote call (`{ error }` destructuring):
`ok`, or `err msg` when the call reported / threw an error. -/
inductive CallResult where
  | ok
  | err (msg : String)
deriving DecidableEq, Repr

/-- Inputs to the OAuth-callback `handleAuth` effect: the `getSession`
response (`data?.session` and `error`), the `localStorage.getItem("userType")`
value (`none` = key absent), and whether the provisioning rpc errors. -/
structure AuthCallbackEnv where
  sessionData : Option Session
  sessionError : Bool
  storedUserType : Option String
  rpcFails : Bool
deriving DecidableEq, Repr

/-- Observable outcome of `handleAuth`: the `router.replace` target, the rpc
invocations issued, and the `console.error` log lines. -/
structure AuthCallbackOutcome where
  nav : Option String
  rpcCalls : List RpcCall
  logs : List String
deriving DecidableEq, Repr

/-- Embeds `localStorage.getItem("userType") || "student"`: a missing key (JS `null`)
and the empty string are both falsy and default to `"student"`. -/
def effectiveUserType (stored : Option String) : String :=
  match stored with
  | some s => if s = "" then "student" else s
  | none => "student"

/-- The OAuth-callback `handleAuth` flow (auth/callback page): fetch the
session; on a missing session or a fetch error redirect to the login page;
otherwise issue the role-scoped provisioning rpc with only the user's email,
log (but otherwise ignore) an rpc error, and redirect by the stored role. -/
def handleAuth (env : AuthCallbackEnv) : AuthCallbackOutcome :=
  match env.sessionData, env.sessionError with
  | none, _ => ⟨some "/login?error=auth", [], []⟩
  | some _, true => ⟨some "/login?error=auth", [], []⟩
  | some sess, false =>
      let userType := effectiveUserType env.storedUserType
      let call : RpcCall :=
        if userType = "faculty" then
          ⟨"create_faculty_profile", some sess.userEmail, none, none, none⟩
        else
          ⟨"create_student_profile", some sess.userEmail, none, none, none⟩
      let logs :=
        if env.rpcFails then
          if userType = "faculty" then ["Faculty profile creation error"]
          else ["Student profile creation error"]
        else []
      let nav := if userType = "faculty" then "/faculty/dashboard" else "/student/dashboard"
      ⟨some nav, [call], logs⟩

/-- The path component of a navigation target: everything before the query
string. -/
def pathOf (url : String) : String :=
  (url.toList.takeWhile (fun c => c ≠ '?')).asString

/-- The `HomePage` redirect effect (src/app/page.tsx) once the session status
has settled: any authenticated session goes to the student dashboard, an
absent session goes to the login page.  The session carries no role input:
the redirect cannot depend on one. -/
def homePage (sess : Option Session) : String :=
  match sess with
  | some _ => "/student/dashboard"
  | none => "/login"

/-- The tables queried by the student-dashboard fetch effects
(`fetchProfile`, `fetchQuizResults`, `fetchAnalytics`): each is only invoked
when a user is present and additionally returns before querying when
`!user`. -/
def dashboardQueries (user : Option Session) : List String :=
  match user with
  | none => []
  | some _ => ["students", "quiz_results", "quiz_results"]

/-- The sign-up form state (`formData`); all fields are strings, the empty
string standing for an unset (JS falsy) field.  `classField` embeds
`formData.class`, `sectionName` embeds `formData.section`. -/
structure SignupForm where
  name : String
  email : String
  password : String
  classField : String
  department : String
  sectionName : String
  username : String
deriving DecidableEq, Repr

/-- Inputs to the sign-up `handleSubmit` flow: the tab selected at submission
time, the form contents, and the outcomes of the awaited remote calls
(`supabase.auth.signUp`, the `create_student_profile` rpc, and the
`createFacultyProfile` service call, whose `err` case is a thrown error). -/
structure SignupEnv where
  userType : String
  form : SignupForm
  signUpResult : CallResult
  rpcResult : CallResult
  facultyResult : CallResult
deriving DecidableEq, Repr

/-- Observable outcome of `handleSubmit`: the navigation target (`none` = no
navigation), the `setError` message (`""` = none), the profile-creation
invocations issued, and the emails passed to `supabase.auth.signUp`. -/
structure SignupOutcome where
  nav : Option String
  errorMsg : String
  rpcCalls : List RpcCall
  authSignUps : List String
deriving DecidableEq, Repr

/-- Embeds `err.message.toLowerCase().includes("duplicate")`, encoded via
`splitOn`: a string contains the substring iff splitting on it yields more
than one piece. -/
def mentionsDuplicate (msg : String) : Bool :=
  ((msg.toLower).splitOn "duplicate").length > 1

/-- The message produced by the sign-up catch block for a thrown error. -/
def catchMessage (msg : String) : String :=
  if mentionsDuplicate msg then
    "This email or username is already registered. Please log in instead."
  else msg

/-- The sign-up `handleSubmit` flow.  Student path: validate the required
fields, register with `supabase.auth.signUp`, then issue the
`create_student_profile` rpc with all four arguments; an rpc error is set as
the form error and navigation does not happen.  Faculty path: validate,
invoke `createFacultyProfile` with all four arguments; a thrown error is
caught and set as the form error (with a friendlier duplicate message) and
navigation does not happen. -/
def handleSubmit (env : SignupEnv) : SignupOutcome :=
  if env.userType = "student" then
    if env.form.classField = "" ∨ env.form.sectionName = "" ∨ env.form.username = "" ∨
        env.form.email = "" ∨ env.form.password = "" then
      ⟨none, "All fields are required for students.", [], []⟩
    else
      match env.signUpResult with
      | CallResult.err m => ⟨none, m, [], [env.form.email]⟩
      | CallResult.ok =>
          let call : RpcCall :=
            ⟨"create_student_profile", some env.form.email, some env.form.classField,
              some env.form.sectionName, some env.form.username⟩
          match env.rpcResult with
          | CallResult.err m => ⟨none, m, [call], [env.form.email]⟩
          | CallResult.ok => ⟨some "/student/dashboard", "", [call], [env.form.email]⟩
  else
    if env.form.department = "" ∨ env.form.sectionName = "" ∨ env.form.username = "" then
      ⟨none, "Department, section, and username are required for faculty.", [], []⟩
    else
      let call : RpcCall :=
        ⟨"create_faculty_profile", some env.form.email, some env.form.department,
          some env.form.sectionName, some env.form.username⟩
      match env.facultyResult with
      | CallResult.err m => ⟨none, catchMessage m, [call], []⟩
      | CallResult.ok => ⟨some "/faculty/dashboard", "", [call], []⟩

/-- Modelled from the spec: the bodies of the remote procedures
`create_student_profile` / `create_faculty_profile` live in the external
managed backend and are not part of this repository.  Per the spec they have
"create if absent" semantics and must be idempotent ("repeat calls for an
existing profile must not surface as a fatal error to the caller"; "at most
one profile per identity per role").  The backend state is the set of emails
holding a profile row per role. -/
structure Backend where
  studentProfiles : List String
  facultyProfiles : List String
deriving DecidableEq, Repr

/-- Modelled from the spec: one invocation of the role's profile-creation
procedure — create the row if absent, report no fatal error either way. -/
def createProfile (role : String) (email : String) (b : Backend) : Backend × CallResult :=
  if role = "faculty" then
    if email ∈ b.facultyProfiles then (b, CallResult.ok)
    else ({ b with facultyProfiles := email :: b.facultyProfiles }, CallResult.ok)
  else
    if email ∈ b.studentProfiles then (b, CallResult.ok)
    else ({ b with studentProfiles := email :: b.studentProfiles }, CallResult.ok)

/-- Number of profile rows the backend holds for an identity in a role. -/
def profileCount (role : String) (email : String) (b : Backend) : ℕ :=
  if role = "faculty" then b.facultyProfiles.count email else b.studentProfiles.count email

/-- A stored JS value, abstracted to what the dashboard error-handling claim
distinguishes: `null`, an array (of some length), or a non-null object. -/
inductive JSVal where
  | jsNull
  | jsArr (len : ℕ)
  | jsObj
deriving DecidableEq, Repr

/-- Embeds `setQuizResults(data || [])`: the stored list depends only on the `data`
field of the response; the `error` field is ignored. -/
def fetchQuizResultsUpdate (respData : Option (List QuizRow)) (_respError : Option String) :
    List QuizRow :=
  respData.getD []

/-- Embeds `setClassmates(classmatesData || [])`. -/
def fetchClassmatesUpdate (respData : Option (List StudentRow)) (_respError : Option String) :
    List StudentRow :=
  respData.getD []

/-- Embeds `setLeaderboard(leaderboardData || [])`. -/
def fetchLeaderboardUpdate (respData : Option (List StudentRow)) (_respError : Option String) :
    List StudentRow :=
  respData.getD []

/-- Embeds `setStudentProfile(data)`: the data field is stored as-is — on a failed
`.single()` fetch that is JS `null`, not an empty array. -/
def fetchProfileUpdate (respData : Option StudentRow) (_respError : Option String) :
    Option StudentRow :=
  respData

/-- The JS value stored into `quizResults` by `fetchQuizResults`. -/
def storedQuizResultsVal (d : Option (List QuizRow)) (e : Option String) : JSVal :=
  JSVal.jsArr (fetchQuizResultsUpdate d e).length

/-- The JS value stored into `studentProfile` by `fetchProfile`. -/
def storedProfileVal (d : Option StudentRow) (e : Option String) : JSVal :=
  match fetchProfileUpdate d e with
  | none => JSVal.jsNull
  | some _ => JSVal.jsObj

/-- Inputs to the login page's `handleManualAuth` effect: the register/login
toggle, the active tab at submission time, and the outcomes of the awaited
auth calls (`sessionPresent` = `data.session` non-null on a successful
sign-in).  The flow reads no stored profile role. -/
structure ManualAuthEnv where
  isRegister : Bool
  activeTab : String
  signInResult : CallResult
  sessionPresent : Bool
  signUpResult : CallResult
deriving DecidableEq, Repr

/-- Observable outcome of `handleManualAuth`. -/
structure ManualAuthOutcome where
  nav : Option String
  errorMsg : String
deriving DecidableEq, Repr

/-- The login page's `handleManualAuth`: in login mode a successful
`signInWithPassword` with a session redirects by the active tab only. -/
def handleManualAuth (env : ManualAuthEnv) : ManualAuthOutcome :=
  if env.isRegister then
    match env.signUpResult with
    | CallResult.err m => ⟨none, m⟩
    | CallResult.ok => ⟨none, "Check your email for a confirmation link."⟩
  else
    match env.signInResult with
    | CallResult.err m => ⟨none, m⟩
    | CallResult.ok =>
        if env.sessionPresent then
          ⟨some (if env.activeTab = "faculty" then "/faculty/dashboard"
                 else "/student/dashboard"), ""⟩
        else ⟨none, ""⟩

end Quiz

namespace Quiz

theorem foldl_add_getD (f : QuizRow → ℚ) :
    ∀ (l : List QuizRow) (a : ℚ), l.foldl (fun s q => s + f q) a = a + (l.map f).sum := by
  intro l
  induction l with
  | nil => intro a; simp
  | cons q t ih =>
      intro a
      simp only [List.foldl_cons, List.map_cons, List.sum_cons, ih]
      ring

theorem scoreSum_eq_sum_nonNull (data : List QuizRow) :
    scoreSum data = (nonNullScores data).sum := by
  unfold scoreSum nonNullScores scoredRows
  rw [foldl_add_getD (fun q => q.score.getD 0)]
  induction data with
  | nil => simp
  | cons q t ih =>
      cases h : q.score with
      | none => simpa [List.filter_cons, List.filterMap_cons, h] using ih
      | some v =>
          simp only [List.filter_cons, List.filterMap_cons, h, Option.isSome_some, if_true,
            List.map_cons, List.sum_cons, Option.getD_some] at ih ⊢
          linarith [ih]

theorem scoredRows_length_eq (data : List QuizRow) :
    (scoredRows data).length = (nonNullScores data).length := by
  unfold scoredRows nonNullScores
  induction data with
  | nil => rfl
  | cons q t ih =>
      cases h : q.score with
      | none => simpa [List.filter_cons, List.filterMap_cons, h] using ih
      | some v => simpa [List.filter_cons, List.filterMap_cons, h] using ih

theorem findIdx?_eq_some_of_first {α : Type} (p : α → Bool) :
    ∀ (l : List α) (k : ℕ) (hk : k < l.length),
      p (l.get ⟨k, hk⟩) = true →
      (∀ j (hj : j < k), p (l.get ⟨j, Nat.lt_trans hj hk⟩) = false) →
      l.findIdx? p = some k := by
  intro l
  induction l with
  | nil =>
      intro k hk
      simp at hk
  | cons a t ih =>
      intro k hk hp hfirst
      cases k with
      | zero =>
          rw [List.findIdx?_cons]
          have ha : p a = true := hp
          simp [ha]
      | succ k =>
          have ha : p a = false := hfirst 0 (Nat.succ_pos k)
          have hk' : k < t.length := Nat.lt_of_succ_lt_succ hk
          have hp' : p (t.get ⟨k, hk'⟩) = true := hp
          have hfirst' : ∀ j (hj : j < k), p (t.get ⟨j, Nat.lt_trans hj hk'⟩) = false := by
            intro j hj
            exact hfirst (j + 1) (Nat.succ_lt_succ hj)
          rw [List.findIdx?_cons, ha]
          simp only [Bool.false_eq_true, if_false, List.findIdx?_succ,
            ih k hk' hp' hfirst']
          rfl

/-- C1 (counterexample): the claim says the computed averageScore "equals 0
when M = 0, with no division-by-zero fault occurring".  `fetchAnalytics`
only guards on `data.length > 0`: for a non-empty fetch whose rows all have
null scores (N = 1, M = 0) the source evaluates `Math.round(0 / 0)`, which is
NaN, not 0. -/
theorem averageScore_zeroM_not_zero :
    averageScore [⟨none, "completed"⟩] = JSNum.nan ∧ JSNum.nan ≠ JSNum.num 0 := by
  constructor
  · rfl
  · decide

/-- C1 (amended): for a fetched list with M non-null scores, averageScore
equals Math.round(sum of the non-null scores / M) whenever M ≥ 1, and equals
0 when the list is empty (N = 0); but when N > 0 and M = 0 it is NaN (the JS
division 0/0), not 0 — no exception is raised, the NaN is stored silently. -/
theorem averageScore_spec :
    (∀ data : List QuizRow, 0 < (nonNullScores data).length →
        averageScore data =
          jsRound (JSNum.num
            ((nonNullScores data).sum / ((nonNullScores data).length : ℚ))))
    ∧ averageScore [] = JSNum.num 0
    ∧ (∀ data : List QuizRow, data ≠ [] → (nonNullScores data).length = 0 →
        averageScore data = JSNum.nan) := by
  refine ⟨?_, rfl, ?_⟩
  · intro data hM
    have hlen : (scoredRows data).length = (nonNullScores data).length :=
      scoredRows_length_eq data
    have hle : (scoredRows data).length ≤ data.length := List.length_filter_le _ _
    have hpos : 0 < data.length := by omega
    have hne : ¬(((scoredRows data).length : ℚ) = 0) := by
      rw [hlen]
      exact_mod_cast Nat.pos_iff_ne_zero.mp hM
    unfold averageScore jsDiv
    rw [if_pos hpos, if_neg hne, scoreSum_eq_sum_nonNull, hlen]
  · intro data hne h0
    have hlen : (scoredRows data).length = 0 := by
      rw [scoredRows_length_eq]
      exact h0
    have hpos : 0 < data.length := List.length_pos.mpr hne
    unfold averageScore jsDiv
    rw [if_pos hpos, hlen]
    norm_num [jsRound]

/-- Witness for C1 (amended): one row with score 7 — M = 1 and the computed
average is round(7/1). -/
theorem averageScore_spec_w :
    averageScore [⟨some 7, "completed"⟩] =
      jsRound (JSNum.num
        ((nonNullScores [⟨some 7, "completed"⟩]).sum /
          ((nonNullScores [⟨some 7, "completed"⟩]).length : ℚ))) :=
  averageScore_spec.1 [⟨some 7, "completed"⟩] (by decide)

/-- C2: for a leaderboard in which the user id first occurs at index k
(0-based), `classRank` is k+1; for a leaderboard not containing the user id,
`classRank` defaults to 1 (`findIndex` yields -1, `-1 + 1 = 0` is falsy, and
`0 || 1` is 1). -/
theorem classRank_spec :
    (∀ (lb : List StudentRow) (uid : String) (k : ℕ) (hk : k < lb.length),
        (lb.get ⟨k, hk⟩).id = uid →
        (∀ j (hj : j < k), (lb.get ⟨j, Nat.lt_trans hj hk⟩).id ≠ uid) →
        classRank lb uid = (k : ℤ) + 1)
    ∧ (∀ (lb : List StudentRow) (uid : String), (∀ s ∈ lb, s.id ≠ uid) →
        classRank lb uid = 1) := by
  constructor
  · intro lb uid k hk hid hfirst
    have hfind : lb.findIdx? (fun l => l.id = uid) = some k := by
      apply findIdx?_eq_some_of_first (fun l => decide (l.id = uid)) lb k hk
      · simpa using hid
      · intro j hj
        simpa using hfirst j hj
    simp only [classRank, jsFindIndex, hfind]
    rw [if_neg (by omega)]
  · intro lb uid h
    have hfind : lb.findIdx? (fun l => l.id = uid) = none := by
      rw [List.findIdx?_eq_none_iff]
      intro x hx
      simpa using h x hx
    unfold classRank jsFindIndex
    rw [hfind]
    rfl

/-- Witness for C2: in a two-row leaderboard, "u2" at index 1 gets rank 2
and an absent id gets rank 1. -/
theorem classRank_spec_w :
    classRank [⟨"u1", "CS", "A", 90⟩, ⟨"u2", "CS", "A", 80⟩] "u2" = (1 : ℤ) + 1 ∧
    classRank [⟨"u1", "CS", "A", 90⟩, ⟨"u2", "CS", "A", 80⟩] "zz" = 1 :=
  ⟨classRank_spec.1 [⟨"u1", "CS", "A", 90⟩, ⟨"u2", "CS", "A", 80⟩] "u2" 1 (by decide)
      (by decide) (by decide),
   classRank_spec.2 [⟨"u1", "CS", "A", 90⟩, ⟨"u2", "CS", "A", 80⟩] "zz" (by decide)⟩

/-- C3 (counterexample): the claim says every authenticated flow treats a
provisioning failure as non-fatal and navigates to the dashboard regardless.
In the sign-up flow (`handleSubmit`, student path) a failing
`create_student_profile` rpc is issued but its error is set as the form error
and no navigation happens. -/
theorem signup_provisioning_failure_blocks_nav :
    (handleSubmit ⟨"student", ⟨"Jane", "j@u.edu", "pw", "10A", "", "A", "jane1"⟩,
        CallResult.ok, CallResult.err "rpc down", CallResult.ok⟩).rpcCalls ≠ [] ∧
    (handleSubmit ⟨"student", ⟨"Jane", "j@u.edu", "pw", "10A", "", "A", "jane1"⟩,
        CallResult.ok, CallResult.err "rpc down", CallResult.ok⟩).errorMsg = "rpc down" ∧
    (handleSubmit ⟨"student", ⟨"Jane", "j@u.edu", "pw", "10A", "", "A", "jane1"⟩,
        CallResult.ok, CallResult.err "rpc down", CallResult.ok⟩).nav = none := by
  refine ⟨by decide, rfl, rfl⟩

/-- C3 (amended): in the OAuth-callback flow (`handleAuth`) a provisioning
failure is only logged and navigation to the stored role's dashboard
proceeds regardless; but in the sign-up flow (`handleSubmit`) a provisioning
failure is surfaced as the form error and blocks navigation. -/
theorem provisioning_failure_handling :
    (∀ (env : AuthCallbackEnv) (s : Session), env.sessionData = some s →
        env.sessionError = false → env.rpcFails = true →
        (handleAuth env).nav =
          some (if effectiveUserType env.storedUserType = "faculty" then "/faculty/dashboard"
                else "/student/dashboard") ∧ (handleAuth env).logs ≠ [])
    ∧ (∀ (env : SignupEnv) (m : String), env.userType = "student" →
        ¬(env.form.classField = "" ∨ env.form.sectionName = "" ∨ env.form.username = "" ∨
          env.form.email = "" ∨ env.form.password = "") →
        env.signUpResult = CallResult.ok → env.rpcResult = CallResult.err m →
        (handleSubmit env).nav = none ∧ (handleSubmit env).errorMsg = m) := by
  constructor
  · rintro ⟨sd, se, st, rf⟩ s hs he hr
    simp only at hs he hr
    subst hs he hr
    by_cases hf : effectiveUserType st = "faculty" <;> simp [handleAuth, hf]
  · rintro ⟨ut, form, su, rpc, fac⟩ m hut hvalid hsu hrpc
    simp only at hut hsu hrpc
    subst hut hsu hrpc
    simp [handleSubmit, hvalid]

/-- Witness for C3 (amended): a failing rpc in the OAuth callback still lands
on the student dashboard; a failing rpc in the sign-up flow blocks
navigation. -/
theorem provisioning_failure_handling_w :
    ((handleAuth ⟨some ⟨"j@u.edu"⟩, false, some "student", true⟩).nav =
        some (if effectiveUserType (some "student") = "faculty" then "/faculty/dashboard"
              else "/student/dashboard") ∧
      (handleAuth ⟨some ⟨"j@u.edu"⟩, false, some "student", true⟩).logs ≠ []) ∧
    ((handleSubmit ⟨"student", ⟨"Jane", "j@u.edu", "pw", "10A", "", "A", "jane1"⟩,
        CallResult.ok, CallResult.err "boom", CallResult.ok⟩).nav = none ∧
      (handleSubmit ⟨"student", ⟨"Jane", "j@u.edu", "pw", "10A", "", "A", "jane1"⟩,
        CallResult.ok, CallResult.err "boom", CallResult.ok⟩).errorMsg = "boom") :=
  ⟨provisioning_failure_handling.1 ⟨some ⟨"j@u.edu"⟩, false, some "student", true⟩
      ⟨"j@u.edu"⟩ rfl rfl rfl,
   provisioning_failure_handling.2 ⟨"student", ⟨"Jane", "j@u.edu", "pw", "10A", "", "A",
      "jane1"⟩, CallResult.ok, CallResult.err "boom", CallResult.ok⟩ "boom" rfl (by decide)
      rfl rfl⟩

/-- C4: with a null session or an errored session fetch, `handleAuth`
navigates to the login page (path `/login`) and issues no provisioning call;
`HomePage` navigates to `/login`; the dashboard fetch effects issue no table
query without a user; and an errored fetch with a session behaves exactly
like a null session. -/
theorem session_absent_goes_login :
    (∀ env : AuthCallbackEnv, env.sessionData = none ∨ env.sessionError = true →
        pathOf ((handleAuth env).nav.getD "") = "/login" ∧ (handleAuth env).rpcCalls = [])
    ∧ homePage none = "/login"
    ∧ dashboardQueries none = []
    ∧ (∀ (s : Session) (r : Option String) (f : Bool),
        handleAuth ⟨some s, true, r, f⟩ = handleAuth ⟨none, false, r, f⟩) := by
  refine ⟨?_, rfl, rfl, ?_⟩
  · rintro ⟨sd, se, st, rf⟩ h
    rcases h with h | h <;> simp only at h <;> subst h
    · refine ⟨?_, rfl⟩
      show pathOf "/login?error=auth" = "/login"
      decide
    · cases sd with
      | none =>
          refine ⟨?_, rfl⟩
          show pathOf "/login?error=auth" = "/login"
          decide
      | some s =>
          refine ⟨?_, rfl⟩
          show pathOf "/login?error=auth" = "/login"
          decide
  · intro s r f
    rfl

/-- Witness for C4: the concrete null-session environment routes to the
login path with no rpc calls. -/
theorem session_absent_goes_login_w :
    pathOf ((handleAuth ⟨none, false, some "faculty", true⟩).nav.getD "") = "/login" ∧
    (handleAuth ⟨none, false, some "faculty", true⟩).rpcCalls = [] :=
  session_absent_goes_login.1 ⟨none, false, some "faculty", true⟩ (Or.inl rfl)

/-- C5: with a session present, `handleAuth` always navigates (after the
provisioning call settles, in either outcome) to the dashboard of the
locally stored role — `/faculty/dashboard` for stored "faculty", otherwise
`/student/dashboard` — and a missing stored role defaults to "student"; in
particular a stale stored role "student" makes the callback provision via
`create_student_profile` and route to the student dashboard, whatever the
identity's actual profile is. -/
theorem oauth_routes_by_stored_role :
    (∀ (env : AuthCallbackEnv) (s : Session), env.sessionData = some s →
        env.sessionError = false →
        (handleAuth env).nav =
          some (if effectiveUserType env.storedUserType = "faculty" then "/faculty/dashboard"
                else "/student/dashboard"))
    ∧ effectiveUserType none = "student"
    ∧ (∀ (s : Session) (f : Bool),
        (handleAuth ⟨some s, false, some "student", f⟩).nav = some "/student/dashboard" ∧
        ((handleAuth ⟨some s, false, some "student", f⟩).rpcCalls.map RpcCall.rpcName) =
          ["create_student_profile"]) := by
  refine ⟨?_, rfl, ?_⟩
  · rintro ⟨sd, se, st, rf⟩ s hs he
    simp only at hs he
    subst hs he
    by_cases hf : effectiveUserType st = "faculty" <;> simp [handleAuth, hf]
  · intro s f
    cases f <;> exact ⟨rfl, rfl⟩

/-- Witness for C5: a session with stored role "faculty" lands on the
faculty dashboard. -/
theorem oauth_routes_by_stored_role_w :
    (handleAuth ⟨some ⟨"f@u.edu"⟩, false, some "faculty", false⟩).nav =
      some (if effectiveUserType (some "faculty") = "faculty" then "/faculty/dashboard"
            else "/student/dashboard") :=
  oauth_routes_by_stored_role.1 ⟨some ⟨"f@u.edu"⟩, false, some "faculty", false⟩
    ⟨"f@u.edu"⟩ rfl rfl

/-- C6: every sign-up submission that navigates (i.e. succeeds) issued
exactly one profile-creation call, named for the role selected at submission
time; and (modelled from the spec, the procedure bodies living in the
external backend) the create-if-absent procedure is idempotent — a repeat
call for the same identity changes nothing and reports no fatal error, and a
first call for a fresh identity creates exactly one profile row. -/
theorem signup_one_idempotent_call :
    (∀ env : SignupEnv, (handleSubmit env).nav.isSome = true →
        ((handleSubmit env).rpcCalls.map RpcCall.rpcName) =
          [if env.userType = "student" then "create_student_profile"
           else "create_faculty_profile"])
    ∧ (∀ (role email : String) (b : Backend),
        createProfile role email (createProfile role email b).1 =
          ((createProfile role email b).1, CallResult.ok))
    ∧ (∀ (role email : String) (b : Backend),
        profileCount role email b = 0 →
        profileCount role email (createProfile role email b).1 = 1) := by
  refine ⟨?_, ?_, ?_⟩
  · rintro ⟨ut, form, su, rpc, fac⟩ h
    by_cases hut : ut = "student"
    · subst hut
      by_cases hv : (form.classField = "" ∨ form.sectionName = "" ∨ form.username = "" ∨
          form.email = "" ∨ form.password = "")
      · simp [handleSubmit, hv] at h
      · cases su with
        | err m => simp [handleSubmit, hv] at h
        | ok =>
            cases rpc with
            | err m => simp [handleSubmit, hv] at h
            | ok => simp [handleSubmit, hv]
    · by_cases hv : (form.department = "" ∨ form.sectionName = "" ∨ form.username = "")
      · simp [handleSubmit, hut, hv] at h
      · cases fac with
        | err m => simp [handleSubmit, hut, hv] at h
        | ok => simp [handleSubmit, hut, hv]
  · intro role email b
    by_cases hrole : role = "faculty"
    · by_cases hmem : email ∈ b.facultyProfiles
      · simp [createProfile, hrole, hmem]
      · simp [createProfile, hrole, hmem]
    · by_cases hmem : email ∈ b.studentProfiles
      · simp [createProfile, hrole, hmem]
      · simp [createProfile, hrole, hmem]
  · intro role email b h0
    by_cases hrole : role = "faculty"
    · have hmem : email ∉ b.facultyProfiles := by
        simp only [profileCount, hrole, if_true] at h0
        exact List.count_eq_zero.mp h0
      simp [createProfile, profileCount, hrole, hmem, List.count_cons_self,
        List.count_eq_zero.mpr hmem]
    · have hmem : email ∉ b.studentProfiles := by
        simp only [profileCount, hrole, if_false] at h0
        exact List.count_eq_zero.mp h0
      simp [createProfile, profileCount, hrole, hmem, List.count_cons_self,
        List.count_eq_zero.mpr hmem]

/-- Witness for C6: a concrete successful faculty sign-up issues exactly the
faculty call; a fresh backend ends with exactly one row and the repeat call
is a no-op with no error. -/
theorem signup_one_idempotent_call_w :
    ((handleSubmit ⟨"faculty", ⟨"Dr. J", "f@u.edu", "pw", "", "CS", "A", "js1"⟩,
        CallResult.ok, CallResult.ok, CallResult.ok⟩).rpcCalls.map RpcCall.rpcName) =
      [if ("faculty" : String) = "student" then "create_student_profile"
       else "create_faculty_profile"] ∧
    createProfile "faculty" "f@u.edu" (createProfile "faculty" "f@u.edu" ⟨[], []⟩).1 =
      ((createProfile "faculty" "f@u.edu" ⟨[], []⟩).1, CallResult.ok) ∧
    profileCount "faculty" "f@u.edu" (createProfile "faculty" "f@u.edu" ⟨[], []⟩).1 = 1 :=
  ⟨signup_one_idempotent_call.1 ⟨"faculty", ⟨"Dr. J", "f@u.edu", "pw", "", "CS", "A", "js1"⟩,
      CallResult.ok, CallResult.ok, CallResult.ok⟩ (by decide),
   signup_one_idempotent_call.2.1 "faculty" "f@u.edu" ⟨[], []⟩,
   signup_one_idempotent_call.2.2 "faculty" "f@u.edu" ⟨[], []⟩ rfl⟩

/-- C7 (counterexample): the claim says every invocation of the two
profile-creation procedures supplies email, department, section and
username.  The OAuth-callback invocation supplies only the email: for a
concrete callback environment, not all issued calls carry the four
arguments. -/
theorem oauth_rpc_missing_args :
    ((handleAuth ⟨some ⟨"a@b.c"⟩, false, some "faculty", false⟩).rpcCalls.all
        hasAllFourArgs) = false := by
  decide

/-- C7 (amended): the sign-up flow's invocations supply all four arguments;
the OAuth-callback invocations supply only the email — department, section
and username are omitted there. -/
theorem rpc_argument_shapes :
    (∀ env : SignupEnv, ∀ c ∈ (handleSubmit env).rpcCalls, hasAllFourArgs c = true)
    ∧ (∀ env : AuthCallbackEnv, ∀ c ∈ (handleAuth env).rpcCalls,
        c.user_email.isSome = true ∧ c.department = none ∧ c.sectionName = none ∧
        c.username = none) := by
  constructor
  · rintro ⟨ut, form, su, rpc, fac⟩ c hc
    by_cases hut : ut = "student"
    · subst hut
      by_cases hv : (form.classField = "" ∨ form.sectionName = "" ∨ form.username = "" ∨
          form.email = "" ∨ form.password = "")
      · simp [handleSubmit, hv] at hc
      · cases su with
        | err m => simp [handleSubmit, hv] at hc
        | ok =>
            cases rpc with
            | err m =>
                simp [handleSubmit, hv] at hc
                subst hc
                rfl
            | ok =>
                simp [handleSubmit, hv] at hc
                subst hc
                rfl
    · by_cases hv : (form.department = "" ∨ form.sectionName = "" ∨ form.username = "")
      · simp [handleSubmit, hut, hv] at hc
      · cases fac with
        | err m =>
            simp [handleSubmit, hut, hv] at hc
            subst hc
            rfl
        | ok =>
            simp [handleSubmit, hut, hv] at hc
            subst hc
            rfl
  · rintro ⟨sd, se, st, rf⟩ c hc
    cases sd with
    | none => simp [handleAuth] at hc
    | some s =>
        cases se with
        | true => simp [handleAuth] at hc
        | false =>
            by_cases hf : effectiveUserType st = "faculty" <;>
              simp [handleAuth, hf] at hc <;> subst hc <;> exact ⟨rfl, rfl, rfl, rfl⟩

/-- Witness for C7 (amended): the concrete callback invocation carries the
email and nothing else; the concrete sign-up invocation carries all four
arguments. -/
theorem rpc_argument_shapes_w :
    hasAllFourArgs ⟨"create_student_profile", some "j@u.edu", some "10A", some "A",
        some "jane1"⟩ = true ∧
    ((⟨"create_faculty_profile", some "a@b.c", none, none, none⟩ : RpcCall).user_email.isSome
        = true ∧
      (⟨"create_faculty_profile", some "a@b.c", none, none, none⟩ : RpcCall).department = none ∧
      (⟨"create_faculty_profile", some "a@b.c", none, none, none⟩ : RpcCall).sectionName = none ∧
      (⟨"create_faculty_profile", some "a@b.c", none, none, none⟩ : RpcCall).username = none) :=
  ⟨rpc_argument_shapes.1 ⟨"student", ⟨"Jane", "j@u.edu", "pw", "10A", "", "A", "jane1"⟩,
      CallResult.ok, CallResult.ok, CallResult.ok⟩
      ⟨"create_student_profile", some "j@u.edu", some "10A", some "A", some "jane1"⟩
      (by decide),
   rpc_argument_shapes.2 ⟨some ⟨"a@b.c"⟩, false, some "faculty", false⟩
      ⟨"create_faculty_profile", some "a@b.c", none, none, none⟩ (by decide)⟩

/-- C8 (counterexample): the claim says every failed dashboard fetch leaves
an empty array in the view state.  The profile fetch (`setStudentProfile(data)`)
stores JS null on a failed fetch, which is not an empty array. -/
theorem profile_failure_stores_null :
    storedProfileVal none (some "network error") = JSVal.jsNull ∧
    JSVal.jsNull ≠ JSVal.jsArr 0 := by
  exact ⟨rfl, by decide⟩

/-- C8 (amended): a failed fetch (null data, with or without an error
object) silently stores the empty array for the three list-valued fetches
(results, classmates, leaderboard) and JS null for the profile fetch; no
update depends on the error object (so no distinct error indication exists),
and a failed results fetch is indistinguishable from a legitimately empty
result set. -/
theorem fetch_failure_yields_empty :
    (∀ e : Option String,
        fetchQuizResultsUpdate none e = [] ∧ fetchClassmatesUpdate none e = [] ∧
        fetchLeaderboardUpdate none e = [] ∧ fetchProfileUpdate none e = none)
    ∧ (∀ (d : Option (List QuizRow)) (e1 e2 : Option String),
        fetchQuizResultsUpdate d e1 = fetchQuizResultsUpdate d e2)
    ∧ (∀ (d : Option (List StudentRow)) (e1 e2 : Option String),
        fetchClassmatesUpdate d e1 = fetchClassmatesUpdate d e2 ∧
        fetchLeaderboardUpdate d e1 = fetchLeaderboardUpdate d e2)
    ∧ (∀ (d : Option StudentRow) (e1 e2 : Option String),
        fetchProfileUpdate d e1 = fetchProfileUpdate d e2)
    ∧ (∀ e e' : Option String,
        fetchQuizResultsUpdate none e = fetchQuizResultsUpdate (some []) e') := by
  exact ⟨fun e => ⟨rfl, rfl, rfl, rfl⟩, fun d e1 e2 => rfl, fun d e1 e2 => ⟨rfl, rfl⟩,
    fun d e1 e2 => rfl, fun e e' => rfl⟩

/-- C9: once the session status settles, `HomePage` routes every
authenticated session to `/student/dashboard`; the redirect consumes no role
information (the session carries none), so faculty users are routed there
too. -/
theorem homepage_always_student_dashboard :
    ∀ s : Session, homePage (some s) = "/student/dashboard" := by
  intro s
  rfl

/-- C10: a successful password sign-in (session present) on the login page
redirects by the active tab alone — "faculty" to `/faculty/dashboard`, any
other tab to `/student/dashboard` — with no error message; the flow has no
stored-profile-role input at all. -/
theorem manual_login_redirect_by_tab :
    ∀ (tab : String) (su : CallResult),
      handleManualAuth ⟨false, tab, CallResult.ok, true, su⟩ =
        ⟨some (if tab = "faculty" then "/faculty/dashboard" else "/student/dashboard"), ""⟩ := by
  intro tab su
  by_cases h : tab = "faculty" <;> simp [handleManualAuth, h]

end Quiz
